import Mathlib

/-!
Shallow embedding of the core query/aggregation logic of `redweatherSh.py`
(WeatherApp): dataset loading (`_clean_data`), temporal resolution
(`_check_data_exists`), weather-code selection (`_get_weather_text`),
monthly aggregation (`_create_avg_temp_figure`, `_get_max_temp_info`,
`_get_min_pressure_info`) and day validation (`_get_validated_day`).

Timestamps are modelled as records of calendar components ordered
lexicographically; temperatures and pressures as `Option ℚ` (a `none`
models a pandas `NaN`); weather codes as `Option String`.  The pandas
`DataFrame` is modelled as a `List` of rows in file order.
-/

deriving instance DecidableEq for Except

namespace RedWeather

/-- A calendar timestamp, the model of a `pandas.Timestamp` parsed with
format `%d.%m.%Y %H:%M`.  Ordered lexicographically by
(year, month, day, hour, minute), which agrees with chronological order on
well-formed dates. -/
structure DT where
  year : Nat
  month : Nat
  day : Nat
  hour : Nat
  minute : Nat
deriving DecidableEq, Repr

/-- Chronological comparison of timestamps (`<=` on `pandas.Timestamp`):
lexicographic on the components. -/
def DT.leB (a b : DT) : Bool :=
  if a.year ≠ b.year then a.year < b.year
  else if a.month ≠ b.month then a.month < b.month
  else if a.day ≠ b.day then a.day < b.day
  else if a.hour ≠ b.hour then a.hour < b.hour
  else a.minute ≤ b.minute

/-- Strict chronological comparison (`<` on `pandas.Timestamp`). -/
def DT.ltB (a b : DT) : Bool :=
  !(DT.leB b a)

/-- One row of the loaded DataFrame: timestamp plus the columns the core
logic reads — temperature `T`, pressure `P`, weather codes `WW` and `W1`.
`none` models a missing (NaN) cell. -/
structure Observation where
  time : DT
  T : Option ℚ
  P : Option ℚ
  WW : Option String
  W1 : Option String
deriving DecidableEq, Repr

/-- The loaded data: the rows of the DataFrame in file order. -/
abbrev Series := List Observation

/-- `calendar.monthrange(year, month)[1]`: the number of days of a
Gregorian month, with the standard leap-year rule. -/
def daysInMonth (year month : Nat) : Nat :=
  let leap := (year % 4 == 0 && year % 100 != 0) || year % 400 == 0
  if month == 2 then (if leap then 29 else 28)
  else if month == 4 || month == 6 || month == 9 || month == 11 then 30
  else 31

/-- Splits a character list at every occurrence of the separator `c`
(the model of `str.split` on a single character). -/
def splitChar (c : Char) : List Char → List (List Char)
  | [] => [[]]
  | x :: xs =>
    let r := splitChar c xs
    if x = c then [] :: r
    else
      match r with
      | [] => [[x]]
      | y :: ys => (x :: y) :: ys

/-- Reads a run of decimal digits as a number; `none` if the list is empty
or holds a non-digit. -/
def digitsToNat? (cs : List Char) : Option Nat :=
  if cs.isEmpty then none
  else if cs.all (fun ch => ch.isDigit) then
    some (cs.foldl (fun acc ch => acc * 10 + (ch.toNat - 48)) 0)
  else none

/-- A day/month/hour/minute field of the `%d.%m.%Y %H:%M` format:
one or two digits. -/
def field2? (cs : List Char) : Option Nat :=
  if cs.length = 1 || cs.length = 2 then digitsToNat? cs else none

/-- The `%Y` field: exactly four digits. -/
def field4? (cs : List Char) : Option Nat :=
  if cs.length = 4 then digitsToNat? cs else none

/-- `pd.to_datetime(s, format=d.m.Y H:M)` on one cell: parses the five
components and checks they form a valid calendar date-time; `none` models
a parse failure. -/
def parseDT (s : String) : Option DT :=
  match splitChar ' ' s.data with
  | [datePart, timePart] =>
    match splitChar '.' datePart, splitChar ':' timePart with
    | [dCs, mCs, yCs], [hCs, minCs] =>
      match field2? dCs, field2? mCs, field4? yCs, field2? hCs, field2? minCs with
      | some d, some m, some y, some h, some mi =>
        if 1 ≤ m && m ≤ 12 && 1 ≤ d && d ≤ daysInMonth y m && h ≤ 23 && mi ≤ 59 then
          some ⟨y, m, d, h, mi⟩
        else none
      | _, _, _, _, _ => none
    | _, _ => none
  | _ => none

/-- A raw row of the input table after the header rows are skipped and the
timestamp column renamed: the time cell is still an unparsed string. -/
structure RawRow where
  timeCell : String
  T : Option ℚ
  P : Option ℚ
  WW : Option String
  W1 : Option String
deriving DecidableEq, Repr

/-- Load-time failure (`DataFormatError`): the timestamp column is
unparsable for some row. -/
inductive LoadError where
  | dataFormat
deriving DecidableEq, Repr

/-- Parses one raw row into an `Observation`. -/
def parseRow (r : RawRow) : Option Observation :=
  (parseDT r.timeCell).map (fun t => ⟨t, r.T, r.P, r.WW, r.W1⟩)

/-- `_clean_data`: renames the timestamp column and converts it with
`pd.to_datetime` (which fails if any cell is unparsable).  The rows are
returned in file order — no sorting and no deduplication takes place. -/
def load (rows : List RawRow) : Except LoadError Series :=
  match rows.mapM parseRow with
  | some obs => Except.ok obs
  | none => Except.error LoadError.dataFormat

/-- The series timestamps are non-decreasing in sequence order. -/
def sortedAscB : Series → Bool
  | [] => true
  | [_] => true
  | a :: b :: rest => DT.leB a.time b.time && sortedAscB (b :: rest)

/-- Request-scoped failure of `_check_data_exists`, one constructor per
`raise ValueError` branch, plus the (unreachable) positional-index failure
of reading `iloc[-1]` from an empty frame. -/
inductive ResolveError where
  | noDataForMonth
  | noFutureData
  | outOfCoverage
  | internalIndexError
deriving DecidableEq, Repr

/-- The result of temporal resolution: the requested instant, whether it
matched a series record exactly, and the stored fallback (`next_date`). -/
structure ResolvedInstant where
  requested : DT
  exact : Bool
  fallback : DT
deriving DecidableEq, Repr

/-- The rows of the requested (year, month):
`data[(Time.dt.year == year) & (Time.dt.month == month)]`. -/
def monthFiltered (data : Series) (year month : Nat) : Series :=
  data.filter (fun o => o.time.year == year && o.time.month == month)

/-- The rows at or after the requested instant:
`data[Time >= date]` (file order preserved). -/
def geqSubset (data : Series) (req : DT) : Series :=
  data.filter (fun o => DT.leB req o.time)

/-- `_check_data_exists`: month-presence check first; then, when the
requested instant is not an exact timestamp match, the no-future-data and
out-of-coverage checks on `data[Time >= date]`; finally `next_date` is set
to `next_data.iloc[-1]`, the LAST element of the >= subset in row order. -/
def resolve (data : Series) (req : DT) : Except ResolveError ResolvedInstant :=
  let filtered := monthFiltered data req.year req.month
  if filtered.isEmpty then Except.error ResolveError.noDataForMonth
  else
    let nextData := geqSubset data req
    let exact := data.any (fun o => o.time == req)
    if !exact && nextData.isEmpty then Except.error ResolveError.noFutureData
    else if !exact && nextData.length == data.length then
      Except.error ResolveError.outOfCoverage
    else
      match nextData.getLast? with
      | some o => Except.ok ⟨req, exact, o.time⟩
      | none => Except.error ResolveError.internalIndexError

/-- The first row whose timestamp equals `t`
(`data.loc[data.Time == t].iloc[0]` when it exists). -/
def firstAt (data : Series) (t : DT) : Option Observation :=
  (data.filter (fun o => o.time == t)).head?

/-- The sentinel returned when no weather code is available. -/
def noWeatherInfo : String := "Нет информации о погоде"

/-- The fixed synoptic reporting hours. -/
def synopticHours : List Nat := [3, 6, 9, 12, 15, 18, 21]

/-- `_get_weather_text`: on a synoptic hour, try the `WW` code of the row
at the requested instant with minutes zeroed; otherwise (or when that row
is absent or its `WW` is missing) fall back to the `W1` code of the row at
`next_date`; when that too is absent or missing, return the sentinel.
Total: never an error for missing weather data. -/
def select (data : Series) (nextDate : DT) (year month day hour : Nat) : String :=
  let fromWW : Option String :=
    if synopticHours.contains hour then
      match firstAt data ⟨year, month, day, hour, 0⟩ with
      | some o => o.WW
      | none => none
    else none
  match fromWW with
  | some w => w
  | none =>
    match firstAt data nextDate with
    | some o =>
      match o.W1 with
      | some w => w
      | none => noWeatherInfo
    | none => noWeatherInfo

/-- The rows of day `d` inside the requested month window. -/
def dayRecords (data : Series) (year month d : Nat) : Series :=
  (monthFiltered data year month).filter (fun o => o.time.day == d)

/-- The non-missing temperature samples of day `d` in the month window. -/
def dayTemps (data : Series) (year month d : Nat) : List ℚ :=
  (dayRecords data year month d).filterMap (fun o => o.T)

/-- The mean of a list of samples; `none` models the NaN that pandas
produces for a group whose samples are all missing. -/
def meanOpt (ts : List ℚ) : Option ℚ :=
  if ts.isEmpty then none else some (ts.sum / ts.length)

/-- `filtered.groupby(filtered.Time.dt.date).T.mean()` from
`_create_avg_temp_figure` and `_get_max_temp_info`: one entry per calendar
day of the month that has at least one row, in ascending day order, whose
value is the mean over the day's non-missing samples — `none` (NaN) when
every sample of the day is missing.  Days with rows but only missing
samples are kept, not dropped. -/
def dailyMeans (data : Series) (year month : Nat) : List (Nat × Option ℚ) :=
  (List.range 31).filterMap (fun i =>
    let d := i + 1
    if (dayRecords data year month d).isEmpty then none
    else some (d, meanOpt (dayTemps data year month d)))

/-- The maximum of a list of values (`Series.max()` over the non-missing
entries); `none` on the empty list models the NaN result. -/
def listMaxQ : List ℚ → Option ℚ
  | [] => none
  | x :: xs =>
    match listMaxQ xs with
    | none => some x
    | some m => some (max x m)

/-- The minimum of a list of values (`Series.min()` over the non-missing
entries); `none` on the empty list models the NaN result. -/
def listMinQ : List ℚ → Option ℚ
  | [] => none
  | x :: xs =>
    match listMinQ xs with
    | none => some x
    | some m => some (min x m)

/-- `_get_max_temp_info`: the maximum of the daily mean temperatures and
the days whose mean equals it (`daily_avg[daily_avg == max_temp].index`);
a NaN mean (`none`) never equals the maximum, so all-missing days are
excluded from the tie set.  `none` overall when no daily mean exists. -/
def maxTemperatureDays (data : Series) (year month : Nat) :
    Option (ℚ × List Nat) :=
  let means := dailyMeans data year month
  match listMaxQ (means.filterMap (fun e => e.2)) with
  | none => none
  | some v => some (v, (means.filter (fun e => e.2 == some v)).map (fun e => e.1))

/-- `_get_min_pressure_info`: the minimum of the raw per-record pressures
in the month and the timestamps of ALL rows whose pressure equals it
(`filtered.loc[filtered.P == min_press, 'Time']`) — one entry per row,
not deduplicated by day.  `none` overall when no pressure sample exists. -/
def minPressureDays (data : Series) (year month : Nat) :
    Option (ℚ × List DT) :=
  let filtered := monthFiltered data year month
  match listMinQ (filtered.filterMap (fun o => o.P)) with
  | none => none
  | some v => some (v, (filtered.filter (fun o => o.P == some v)).map (fun o => o.time))

/-- Validation failure for the day field, one constructor per
`raise ValueError` branch of `_get_validated_day` (the `invalidLiteral`
case models the `ValueError` that Python's `int()` itself raises). -/
inductive DayError where
  | notEntered
  | tooManyDigits
  | outOfRange
  | invalidLiteral
deriving DecidableEq, Repr

/-- `int(s)` on the raw day string, modelled for digit-only strings:
`none` models the `ValueError` that `int()` raises otherwise. -/
def pyInt? (s : String) : Option Nat :=
  digitsToNat? s.data

/-- `_get_validated_day`: rejects the empty string, then any raw string
longer than 2 characters (a literal length check on the raw input,
independent of the parsed value), then parses and checks
`1 <= day <= calendar.monthrange(year, month)[1]`. -/
def getValidatedDay (dayStr : String) (year month : Nat) : Except DayError Nat :=
  if dayStr.length = 0 then Except.error DayError.notEntered
  else if dayStr.length > 2 then Except.error DayError.tooManyDigits
  else
    match pyInt? dayStr with
    | none => Except.error DayError.invalidLiteral
    | some day =>
      if day < 1 || day > daysInMonth year month then Except.error DayError.outOfRange
      else Except.ok day

/-! ### Helper lemmas -/

theorem DT.leB_refl (a : DT) : DT.leB a a = true := by
  simp [DT.leB]

theorem DT.leB_total (a b : DT) : DT.leB a b = true ∨ DT.leB b a = true := by
  simp only [DT.leB]
  split_ifs <;> simp_all
  all_goals omega

theorem DT.ltB_irrefl (a : DT) : DT.ltB a a = false := by
  simp [DT.ltB, DT.leB_refl]

theorem listMaxQ_isSome {l : List ℚ} (h : l ≠ []) : ∃ v, listMaxQ l = some v := by
  cases l with
  | nil => exact absurd rfl h
  | cons x xs =>
    cases hxs : listMaxQ xs <;> simp [listMaxQ, hxs]

theorem listMaxQ_mem {l : List ℚ} {v : ℚ} (h : listMaxQ l = some v) : v ∈ l := by
  induction l generalizing v with
  | nil => simp [listMaxQ] at h
  | cons x xs ih =>
    cases hxs : listMaxQ xs with
    | none =>
      simp [listMaxQ, hxs] at h
      simp [h]
    | some m =>
      simp [listMaxQ, hxs] at h
      rcases max_choice x m with hc | hc <;> rw [hc] at h
      · simp [h]
      · exact List.mem_cons_of_mem _ (h ▸ ih hxs)

theorem listMaxQ_le {l : List ℚ} {v q : ℚ} (h : listMaxQ l = some v)
    (hq : q ∈ l) : q ≤ v := by
  induction l generalizing v with
  | nil => simp at hq
  | cons x xs ih =>
    cases hxs : listMaxQ xs with
    | none =>
      have hnil : xs = [] := by
        cases xs with
        | nil => rfl
        | cons y ys =>
          rcases listMaxQ_isSome (l := y :: ys) (by simp) with ⟨w, hw⟩
          rw [hw] at hxs; cases hxs
      simp [listMaxQ, hxs] at h
      subst hnil
      simp at hq
      simp [hq, h]
    | some m =>
      simp [listMaxQ, hxs] at h
      rcases List.mem_cons.mp hq with rfl | hmem
      · exact h ▸ le_max_left _ _
      · exact le_trans (ih hxs hmem) (h ▸ le_max_right _ _)

theorem listMinQ_isSome {l : List ℚ} (h : l ≠ []) : ∃ v, listMinQ l = some v := by
  cases l with
  | nil => exact absurd rfl h
  | cons x xs =>
    cases hxs : listMinQ xs <;> simp [listMinQ, hxs]

theorem listMinQ_mem {l : List ℚ} {v : ℚ} (h : listMinQ l = some v) : v ∈ l := by
  induction l generalizing v with
  | nil => simp [listMinQ] at h
  | cons x xs ih =>
    cases hxs : listMinQ xs with
    | none =>
      simp [listMinQ, hxs] at h
      simp [h]
    | some m =>
      simp [listMinQ, hxs] at h
      rcases min_choice x m with hc | hc <;> rw [hc] at h
      · simp [h]
      · exact List.mem_cons_of_mem _ (h ▸ ih hxs)

theorem listMinQ_le {l : List ℚ} {v q : ℚ} (h : listMinQ l = some v)
    (hq : q ∈ l) : v ≤ q := by
  induction l generalizing v with
  | nil => simp at hq
  | cons x xs ih =>
    cases hxs : listMinQ xs with
    | none =>
      have hnil : xs = [] := by
        cases xs with
        | nil => rfl
        | cons y ys =>
          rcases listMinQ_isSome (l := y :: ys) (by simp) with ⟨w, hw⟩
          rw [hw] at hxs; cases hxs
      simp [listMinQ, hxs] at h
      subst hnil
      simp at hq
      simp [hq, h]
    | some m =>
      simp [listMinQ, hxs] at h
      rcases List.mem_cons.mp hq with rfl | hmem
      · exact h ▸ min_le_left _ _
      · exact le_trans (h ▸ min_le_right _ _) (ih hxs hmem)

/-! ### Claim theorems -/

/-- C1: for every series and requested timestamp whose `>=`-subset is
neither empty nor the whole series, any `ResolvedInstant` the resolver
returns stores as `fallback` the timestamp of the LAST element of that
subset in series order; and the resolver does return one whenever the
requested (year, month) has records. -/
theorem spec_C1 (data : Series) (req : DT)
    (hne : geqSubset data req ≠ [])
    (hlen : (geqSubset data req).length ≠ data.length) :
    (∀ r, resolve data req = Except.ok r →
        ∃ o, (geqSubset data req).getLast? = some o ∧ r.fallback = o.time) ∧
    (monthFiltered data req.year req.month ≠ [] →
        ∃ r, resolve data req = Except.ok r) := by
  obtain ⟨o, ho⟩ : ∃ o, (geqSubset data req).getLast? = some o := by
    cases hgl : (geqSubset data req).getLast? with
    | none => exact absurd (List.getLast?_eq_none_iff.mp hgl) hne
    | some o => exact ⟨o, rfl⟩
  have hemp : (geqSubset data req).isEmpty = false := List.isEmpty_eq_false.mpr hne
  have hlenB : ((geqSubset data req).length == data.length) = false := by
    simp [hlen]
  constructor
  · intro r hr
    refine ⟨o, ho, ?_⟩
    unfold resolve at hr
    simp [hemp, hlenB, ho] at hr
    split at hr
    · cases hr
    · cases hr
      rfl
  · intro hmonth
    have hmonthB : (monthFiltered data req.year req.month).isEmpty = false :=
      List.isEmpty_eq_false.mpr hmonth
    refine ⟨⟨req, data.any (fun x => x.time == req), o.time⟩, ?_⟩
    unfold resolve
    simp [hmonthB, hemp, hlenB, ho]

/-- C1 witness: a three-record series and a request strictly between the
first two records; the `>=`-subset has two elements and the stored
fallback is the later of them (the last, not the nearest). -/
theorem spec_C1_witness :
    (geqSubset
        [⟨⟨2020, 1, 10, 0, 0⟩, none, none, none, none⟩,
         ⟨⟨2020, 1, 20, 0, 0⟩, none, none, none, none⟩,
         ⟨⟨2020, 1, 25, 0, 0⟩, none, none, none, none⟩] ⟨2020, 1, 15, 0, 0⟩ ≠ [] ∧
      (geqSubset
        [⟨⟨2020, 1, 10, 0, 0⟩, none, none, none, none⟩,
         ⟨⟨2020, 1, 20, 0, 0⟩, none, none, none, none⟩,
         ⟨⟨2020, 1, 25, 0, 0⟩, none, none, none, none⟩] ⟨2020, 1, 15, 0, 0⟩).length ≠ 3) ∧
    (∀ r, resolve
        [⟨⟨2020, 1, 10, 0, 0⟩, none, none, none, none⟩,
         ⟨⟨2020, 1, 20, 0, 0⟩, none, none, none, none⟩,
         ⟨⟨2020, 1, 25, 0, 0⟩, none, none, none, none⟩] ⟨2020, 1, 15, 0, 0⟩ =
          Except.ok r →
        ∃ o, (geqSubset
          [⟨⟨2020, 1, 10, 0, 0⟩, none, none, none, none⟩,
           ⟨⟨2020, 1, 20, 0, 0⟩, none, none, none, none⟩,
           ⟨⟨2020, 1, 25, 0, 0⟩, none, none, none, none⟩] ⟨2020, 1, 15, 0, 0⟩).getLast? =
            some o ∧ r.fallback = o.time) := by
  refine ⟨⟨by decide, by decide⟩, ?_⟩
  exact (spec_C1
    [⟨⟨2020, 1, 10, 0, 0⟩, none, none, none, none⟩,
     ⟨⟨2020, 1, 20, 0, 0⟩, none, none, none, none⟩,
     ⟨⟨2020, 1, 25, 0, 0⟩, none, none, none, none⟩] ⟨2020, 1, 15, 0, 0⟩
    (by decide) (by decide)).1

theorem mapM_parseRow_index : ∀ (rows : List RawRow) (obs : Series),
    rows.mapM parseRow = some obs →
    obs.length = rows.length ∧ ∀ i : Nat, rows[i]?.bind parseRow = obs[i]? := by
  intro rows
  induction rows with
  | nil =>
    intro obs h
    simp only [List.mapM_nil, pure, Option.some.injEq] at h
    subst h
    exact ⟨rfl, fun i => by simp⟩
  | cons r rs ih =>
    intro obs h
    rw [List.mapM_cons] at h
    cases hr : parseRow r with
    | none => rw [hr] at h; simp at h
    | some o =>
      rw [hr] at h
      cases hrs : rs.mapM parseRow with
      | none => rw [hrs] at h; simp at h
      | some os =>
        rw [hrs] at h
        simp at h
        subst h
        obtain ⟨hlen, hidx⟩ := ih os hrs
        refine ⟨by simp [hlen], fun i => ?_⟩
        cases i with
        | zero => simp [hr]
        | succ j => simpa using hidx j

/-- C2 counterexample: a well-formed two-row table with distinct
timestamps in descending order loads into a series of the same order —
the loader does not sort, so the result is not ascending. -/
theorem spec_C2_counterexample :
    load [⟨"20.01.2020 12:00", some 5, none, none, none⟩,
          ⟨"10.01.2020 06:00", some 3, none, none, none⟩] =
      Except.ok [⟨⟨2020, 1, 20, 12, 0⟩, some 5, none, none, none⟩,
                 ⟨⟨2020, 1, 10, 6, 0⟩, some 3, none, none, none⟩] ∧
    sortedAscB [⟨⟨2020, 1, 20, 12, 0⟩, some 5, none, none, none⟩,
                ⟨⟨2020, 1, 10, 6, 0⟩, some 3, none, none, none⟩] = false := by
  decide

/-- C2 (amended): loading a table whose N rows are well formed yields a
series of length N whose i-th observation is the parse of the i-th row —
the input row order is preserved unchanged (the loader performs no sort,
so the series is ascending only when the source rows already are). -/
theorem spec_C2 (rows : List RawRow) (obs : Series)
    (h : load rows = Except.ok obs) :
    obs.length = rows.length ∧ ∀ i : Nat, rows[i]?.bind parseRow = obs[i]? := by
  have hm : rows.mapM parseRow = some obs := by
    unfold load at h
    cases hm : rows.mapM parseRow with
    | none => rw [hm] at h; cases h
    | some l => rw [hm] at h; cases h; rfl
  exact mapM_parseRow_index rows obs hm

/-- C2 witness: the amended theorem applied to a concrete two-row
ascending table. -/
theorem spec_C2_witness :
    load [⟨"10.01.2020 06:00", some 3, none, none, none⟩,
          ⟨"20.01.2020 12:00", some 5, none, none, none⟩] =
      Except.ok [⟨⟨2020, 1, 10, 6, 0⟩, some 3, none, none, none⟩,
                 ⟨⟨2020, 1, 20, 12, 0⟩, some 5, none, none, none⟩] ∧
    ([(⟨⟨2020, 1, 10, 6, 0⟩, some 3, none, none, none⟩ : Observation),
      ⟨⟨2020, 1, 20, 12, 0⟩, some 5, none, none, none⟩].length =
      [(⟨"10.01.2020 06:00", some 3, none, none, none⟩ : RawRow),
       ⟨"20.01.2020 12:00", some 5, none, none, none⟩].length ∧
     ∀ i : Nat,
      [(⟨"10.01.2020 06:00", some 3, none, none, none⟩ : RawRow),
       ⟨"20.01.2020 12:00", some 5, none, none, none⟩][i]?.bind parseRow =
      [(⟨⟨2020, 1, 10, 6, 0⟩, some 3, none, none, none⟩ : Observation),
       ⟨⟨2020, 1, 20, 12, 0⟩, some 5, none, none, none⟩][i]?) :=
  ⟨by decide, spec_C2 _ _ (by decide)⟩

/-- C3 counterexample: a request strictly later than every record whose
(year, month) holds no record fails with the month error, not with
`NoFutureDataError`. -/
theorem spec_C3_counterexample :
    (∀ o ∈ ([⟨⟨2020, 1, 15, 12, 0⟩, none, none, none, none⟩] : Series),
        DT.ltB o.time ⟨2020, 2, 1, 0, 0⟩ = true) ∧
    resolve [⟨⟨2020, 1, 15, 12, 0⟩, none, none, none, none⟩] ⟨2020, 2, 1, 0, 0⟩ =
      Except.error ResolveError.noDataForMonth := by
  decide

/-- C3 (amended): a request strictly later than every record fails with
`NoFutureDataError`, provided at least one record falls in the requested
(year, month) — otherwise the month-presence check fires first. -/
theorem spec_C3 (data : Series) (req : DT)
    (hmonth : monthFiltered data req.year req.month ≠ [])
    (hlate : ∀ o ∈ data, DT.ltB o.time req = true) :
    resolve data req = Except.error ResolveError.noFutureData := by
  have hmonthB : (monthFiltered data req.year req.month).isEmpty = false :=
    List.isEmpty_eq_false.mpr hmonth
  have hgeq : geqSubset data req = [] := by
    unfold geqSubset
    rw [List.filter_eq_nil_iff]
    intro o ho
    have h1 := hlate o ho
    simp only [DT.ltB, Bool.not_eq_true'] at h1
    simp [h1]
  have hexact : data.any (fun o => o.time == req) = false := by
    rw [List.any_eq_false]
    intro o ho hbeq
    have h1 := hlate o ho
    have h2 : o.time = req := by simpa using hbeq
    rw [h2, DT.ltB_irrefl] at h1
    cases h1
  unfold resolve
  simp [hmonthB, hgeq, hexact]

/-- C3 witness: the amended theorem applied to a one-record January
series and a later January request. -/
theorem spec_C3_witness :
    (monthFiltered [⟨⟨2020, 1, 10, 0, 0⟩, none, none, none, none⟩]
        (DT.year ⟨2020, 1, 20, 0, 0⟩) (DT.month ⟨2020, 1, 20, 0, 0⟩) ≠ [] ∧
      ∀ o ∈ ([⟨⟨2020, 1, 10, 0, 0⟩, none, none, none, none⟩] : Series),
        DT.ltB o.time ⟨2020, 1, 20, 0, 0⟩ = true) ∧
    resolve [⟨⟨2020, 1, 10, 0, 0⟩, none, none, none, none⟩] ⟨2020, 1, 20, 0, 0⟩ =
      Except.error ResolveError.noFutureData :=
  ⟨⟨by decide, by decide⟩,
    spec_C3 [⟨⟨2020, 1, 10, 0, 0⟩, none, none, none, none⟩] ⟨2020, 1, 20, 0, 0⟩
      (by decide) (by decide)⟩

/-- C4 counterexample: a request strictly earlier than every record whose
(year, month) holds no record fails with the month error, not with
`OutOfCoverageError`. -/
theorem spec_C4_counterexample :
    (∀ o ∈ ([⟨⟨2020, 5, 15, 12, 0⟩, none, none, none, none⟩] : Series),
        DT.ltB ⟨2020, 1, 1, 0, 0⟩ o.time = true) ∧
    resolve [⟨⟨2020, 5, 15, 12, 0⟩, none, none, none, none⟩] ⟨2020, 1, 1, 0, 0⟩ =
      Except.error ResolveError.noDataForMonth := by
  decide

/-- C4 (amended): a request strictly earlier than every record fails with
`OutOfCoverageError`, provided at least one record falls in the requested
(year, month) — otherwise the month-presence check fires first. -/
theorem spec_C4 (data : Series) (req : DT)
    (hmonth : monthFiltered data req.year req.month ≠ [])
    (hearly : ∀ o ∈ data, DT.ltB req o.time = true) :
    resolve data req = Except.error ResolveError.outOfCoverage := by
  have hmonthB : (monthFiltered data req.year req.month).isEmpty = false :=
    List.isEmpty_eq_false.mpr hmonth
  have hgeq : geqSubset data req = data := by
    unfold geqSubset
    rw [List.filter_eq_self]
    intro o ho
    have h1 := hearly o ho
    simp only [DT.ltB, Bool.not_eq_true'] at h1
    rcases DT.leB_total req o.time with h2 | h2
    · simp [h2]
    · rw [h2] at h1; cases h1
  have hexact : data.any (fun o => o.time == req) = false := by
    rw [List.any_eq_false]
    intro o ho hbeq
    have h1 := hearly o ho
    have h2 : o.time = req := by simpa using hbeq
    rw [h2, DT.ltB_irrefl] at h1
    cases h1
  have hdata : data ≠ [] := by
    intro hd
    apply hmonth
    unfold monthFiltered
    rw [hd]
    rfl
  have hempB : data.isEmpty = false := List.isEmpty_eq_false.mpr hdata
  unfold resolve
  simp [hmonthB, hgeq, hexact, hempB]

/-- C4 witness: the amended theorem applied to a one-record January
series and an earlier January request. -/
theorem spec_C4_witness :
    (monthFiltered [⟨⟨2020, 1, 10, 0, 0⟩, none, none, none, none⟩]
        (DT.year ⟨2020, 1, 5, 0, 0⟩) (DT.month ⟨2020, 1, 5, 0, 0⟩) ≠ [] ∧
      ∀ o ∈ ([⟨⟨2020, 1, 10, 0, 0⟩, none, none, none, none⟩] : Series),
        DT.ltB ⟨2020, 1, 5, 0, 0⟩ o.time = true) ∧
    resolve [⟨⟨2020, 1, 10, 0, 0⟩, none, none, none, none⟩] ⟨2020, 1, 5, 0, 0⟩ =
      Except.error ResolveError.outOfCoverage :=
  ⟨⟨by decide, by decide⟩,
    spec_C4 [⟨⟨2020, 1, 10, 0, 0⟩, none, none, none, none⟩] ⟨2020, 1, 5, 0, 0⟩
      (by decide) (by decide)⟩

/-- January 2020 sample month: day 1 has temperatures 10 and 20, day 2
has 30, day 3 has two records whose temperatures are both missing. -/
def exSeries5 : Series :=
  [⟨⟨2020, 1, 1, 3, 0⟩, some 10, none, none, none⟩,
   ⟨⟨2020, 1, 1, 9, 0⟩, some 20, none, none, none⟩,
   ⟨⟨2020, 1, 2, 3, 0⟩, some 30, none, none, none⟩,
   ⟨⟨2020, 1, 3, 3, 0⟩, none, none, none, none⟩,
   ⟨⟨2020, 1, 3, 9, 0⟩, none, none, none, none⟩]

/-- C5 counterexample: day 3 has records but zero non-missing
temperatures, yet it is NOT omitted — it appears in the grouped result
with a missing (NaN) mean. -/
theorem spec_C5_counterexample :
    dayRecords exSeries5 2020 1 3 ≠ [] ∧
    dayTemps exSeries5 2020 1 3 = [] ∧
    (dailyMeans exSeries5 2020 1).map (fun e => e.1) = [1, 2, 3] ∧
    (3, (none : Option ℚ)) ∈ dailyMeans exSeries5 2020 1 := by
  decide

/-- C5 (amended): within the month window the records are grouped by
calendar day; every day with at least one record yields one aggregate
whose value is the mean over that day's non-missing temperatures, and a
day whose samples are all missing yields a missing (`none`) mean rather
than being omitted. -/
theorem spec_C5 (data : Series) (year month d : Nat)
    (h1 : 1 ≤ d) (h2 : d ≤ 31) (h3 : dayRecords data year month d ≠ []) :
    (d, meanOpt (dayTemps data year month d)) ∈ dailyMeans data year month ∧
    ∀ v, meanOpt (dayTemps data year month d) = some v →
      dayTemps data year month d ≠ [] ∧
      v = (dayTemps data year month d).sum /
            ((dayTemps data year month d).length : ℚ) := by
  constructor
  · apply List.mem_filterMap.mpr
    refine ⟨d - 1, List.mem_range.mpr (by omega), ?_⟩
    have hd : d - 1 + 1 = d := by omega
    simp only [hd, List.isEmpty_eq_false.mpr h3, Bool.false_eq_true, if_false]
  · intro v hv
    unfold meanOpt at hv
    split at hv
    · cases hv
    · rename_i hemp
      refine ⟨by simpa [List.isEmpty_iff] using hemp, ?_⟩
      cases hv
      rfl

/-- C5 witness: the amended theorem applied to day 1 of the sample
month, which has two non-missing samples. -/
theorem spec_C5_witness :
    (1 ≤ 1 ∧ 1 ≤ 31 ∧ dayRecords exSeries5 2020 1 1 ≠ []) ∧
    ((1, meanOpt (dayTemps exSeries5 2020 1 1)) ∈ dailyMeans exSeries5 2020 1 ∧
      ∀ v, meanOpt (dayTemps exSeries5 2020 1 1) = some v →
        dayTemps exSeries5 2020 1 1 ≠ [] ∧
        v = (dayTemps exSeries5 2020 1 1).sum /
              ((dayTemps exSeries5 2020 1 1).length : ℚ)) :=
  ⟨⟨le_refl 1, by decide, by decide⟩,
    spec_C5 exSeries5 2020 1 1 (le_refl 1) (by decide) (by decide)⟩

/-- C6: whenever at least one daily mean exists, the maximum-temperature
report is the maximum over the daily means (not the raw samples), paired
with exactly the days whose mean attains it — all ties included. -/
theorem spec_C6 (data : Series) (year month : Nat)
    (h : (dailyMeans data year month).filterMap (fun e => e.2) ≠ []) :
    ∃ v ds, maxTemperatureDays data year month = some (v, ds) ∧
      (∃ e ∈ dailyMeans data year month, e.2 = some v) ∧
      (∀ e ∈ dailyMeans data year month, ∀ q, e.2 = some q → q ≤ v) ∧
      (∀ d, d ∈ ds ↔ (d, some v) ∈ dailyMeans data year month) := by
  obtain ⟨v, hv⟩ := listMaxQ_isSome h
  refine ⟨v,
    ((dailyMeans data year month).filter (fun e => e.2 == some v)).map (fun e => e.1),
    ?_, ?_, ?_, ?_⟩
  · simp [maxTemperatureDays, hv]
  · exact List.mem_filterMap.mp (listMaxQ_mem hv)
  · intro e he q hq
    exact listMaxQ_le hv (List.mem_filterMap.mpr ⟨e, he, hq⟩)
  · intro d
    constructor
    · intro hd
      rcases List.mem_map.mp hd with ⟨e, he, hde⟩
      rcases List.mem_filter.mp he with ⟨hmem, hbeq⟩
      obtain ⟨e1, e2⟩ := e
      have h2 : e2 = some v := by simpa using hbeq
      have h1 : e1 = d := hde
      rw [← h1, ← h2]
      exact hmem
    · intro hd
      exact List.mem_map.mpr ⟨(d, some v), List.mem_filter.mpr ⟨hd, by simp⟩, rfl⟩

/-- January 2020 sample month with a two-day tie at the maximal daily
mean: days 1 and 2 both average 30, day 3 averages 10. -/
def exSeries6 : Series :=
  [⟨⟨2020, 1, 1, 3, 0⟩, some 20, none, none, none⟩,
   ⟨⟨2020, 1, 1, 9, 0⟩, some 40, none, none, none⟩,
   ⟨⟨2020, 1, 2, 3, 0⟩, some 30, none, none, none⟩,
   ⟨⟨2020, 1, 3, 3, 0⟩, some 10, none, none, none⟩]

/-- C6 witness: the theorem applied to the tied sample month. -/
theorem spec_C6_witness :
    (dailyMeans exSeries6 2020 1).filterMap (fun e => e.2) ≠ [] ∧
    (∃ v ds, maxTemperatureDays exSeries6 2020 1 = some (v, ds) ∧
      (∃ e ∈ dailyMeans exSeries6 2020 1, e.2 = some v) ∧
      (∀ e ∈ dailyMeans exSeries6 2020 1, ∀ q, e.2 = some q → q ≤ v) ∧
      (∀ d, d ∈ ds ↔ (d, some v) ∈ dailyMeans exSeries6 2020 1)) :=
  ⟨by decide, spec_C6 exSeries6 2020 1 (by decide)⟩

/-- C7: whenever at least one pressure sample exists in the month, the
minimum-pressure report is the minimum over the raw per-record pressures
(not daily means), paired with the timestamp of EVERY record attaining
it — one entry per record, not deduplicated by day. -/
theorem spec_C7 (data : Series) (year month : Nat)
    (h : (monthFiltered data year month).filterMap (fun o => o.P) ≠ []) :
    ∃ v ts, minPressureDays data year month = some (v, ts) ∧
      v ∈ (monthFiltered data year month).filterMap (fun o => o.P) ∧
      (∀ q ∈ (monthFiltered data year month).filterMap (fun o => o.P), v ≤ q) ∧
      ts = ((monthFiltered data year month).filter (fun o => o.P == some v)).map
            (fun o => o.time) ∧
      (∀ t, t ∈ ts ↔
        ∃ o ∈ monthFiltered data year month, o.P = some v ∧ o.time = t) := by
  obtain ⟨v, hv⟩ := listMinQ_isSome h
  refine ⟨v,
    ((monthFiltered data year month).filter (fun o => o.P == some v)).map
      (fun o => o.time),
    ?_, listMinQ_mem hv, fun q hq => listMinQ_le hv hq, rfl, ?_⟩
  · simp [minPressureDays, hv]
  · intro t
    constructor
    · intro ht
      rcases List.mem_map.mp ht with ⟨o, ho, hot⟩
      rcases List.mem_filter.mp ho with ⟨hm, hbeq⟩
      exact ⟨o, hm, by simpa using hbeq, hot⟩
    · rintro ⟨o, hm, hp, rfl⟩
      exact List.mem_map.mpr ⟨o, List.mem_filter.mpr ⟨hm, by simp [hp]⟩, rfl⟩

/-- January 2020 sample month with the minimal raw pressure 990 attained
by two records on different days (and once more at a higher pressure). -/
def exSeries7 : Series :=
  [⟨⟨2020, 1, 1, 3, 0⟩, none, some 990, none, none⟩,
   ⟨⟨2020, 1, 2, 3, 0⟩, none, some 1000, none, none⟩,
   ⟨⟨2020, 1, 3, 3, 0⟩, none, some 990, none, none⟩]

/-- C7 witness: the theorem applied to the sample month with a
two-record tie at the minimum. -/
theorem spec_C7_witness :
    (monthFiltered exSeries7 2020 1).filterMap (fun o => o.P) ≠ [] ∧
    (∃ v ts, minPressureDays exSeries7 2020 1 = some (v, ts) ∧
      v ∈ (monthFiltered exSeries7 2020 1).filterMap (fun o => o.P) ∧
      (∀ q ∈ (monthFiltered exSeries7 2020 1).filterMap (fun o => o.P), v ≤ q) ∧
      ts = ((monthFiltered exSeries7 2020 1).filter (fun o => o.P == some v)).map
            (fun o => o.time) ∧
      (∀ t, t ∈ ts ↔
        ∃ o ∈ monthFiltered exSeries7 2020 1, o.P = some v ∧ o.time = t)) :=
  ⟨by decide, spec_C7 exSeries7 2020 1 (by decide)⟩

/-- C8: any raw day string longer than two characters is rejected with
the digit-count error regardless of its numeric value, while the
two-digit string "07" is accepted (as 7) whenever 7 is within the month's
day range — the length check runs on the raw input before parsing. -/
theorem spec_C8 :
    (∀ (s : String) (year month : Nat), 2 < s.length →
        getValidatedDay s year month = Except.error DayError.tooManyDigits) ∧
    (∀ year month : Nat, 7 ≤ daysInMonth year month →
        getValidatedDay "07" year month = Except.ok 7) := by
  constructor
  · intro s year month hs
    unfold getValidatedDay
    rw [if_neg (by omega), if_pos (by omega)]
  · intro year month h
    have h1 : ¬("07".length = 0) := by decide
    have h2 : ¬("07".length > 2) := by decide
    have h3 : pyInt? "07" = some 7 := by decide
    unfold getValidatedDay
    rw [if_neg h1, if_neg h2, h3]
    simp [Nat.not_lt.mpr h]

/-- C8 witness: "007" is rejected by digit count even though 7 is in
range, and "07" is accepted for February 2024. -/
theorem spec_C8_witness :
    (2 < "007".length ∧
      getValidatedDay "007" 2024 2 = Except.error DayError.tooManyDigits) ∧
    (7 ≤ daysInMonth 2024 2 ∧ getValidatedDay "07" 2024 2 = Except.ok 7) :=
  ⟨⟨by decide, spec_C8.1 "007" 2024 2 (by decide)⟩,
   ⟨by decide, spec_C8.2 2024 2 (by decide)⟩⟩

/-- C9: on a synoptic hour with a non-missing `WW` code at the
minutes-zeroed requested instant that code is displayed; in every other
case the `W1` code of the record at the resolver's fallback is displayed
when present, and the sentinel when it is missing or absent — the
selector is total and never fails on missing weather data. -/
theorem spec_C9 (data : Series) (nextDate : DT) (year month day hour : Nat) :
    (∀ w, synopticHours.contains hour = true →
        (firstAt data ⟨year, month, day, hour, 0⟩).bind (fun o => o.WW) = some w →
        select data nextDate year month day hour = w) ∧
    ((synopticHours.contains hour = false ∨
        (firstAt data ⟨year, month, day, hour, 0⟩).bind (fun o => o.WW) = none) →
      (∀ w, (firstAt data nextDate).bind (fun o => o.W1) = some w →
          select data nextDate year month day hour = w) ∧
      ((firstAt data nextDate).bind (fun o => o.W1) = none →
          select data nextDate year month day hour = noWeatherInfo)) := by
  constructor
  · intro w hsyn hww
    have hmem : hour ∈ synopticHours := by simpa using hsyn
    rcases hb : firstAt data ⟨year, month, day, hour, 0⟩ with _ | o
    · rw [hb] at hww; cases hww
    · rw [hb] at hww
      simp only [Option.some_bind] at hww
      unfold select
      simp [hmem, hb, hww]
  · intro hcase
    constructor
    · intro w hw1
      rcases hb : firstAt data nextDate with _ | o
      · rw [hb] at hw1; cases hw1
      · rw [hb] at hw1
        simp only [Option.some_bind] at hw1
        unfold select
        rcases hcase with hc | hc
        · have hnmem : hour ∉ synopticHours := by simpa using hc
          simp [hnmem, hb, hw1]
        · rcases hb0 : firstAt data ⟨year, month, day, hour, 0⟩ with _ | o0
          · simp [hb0, hb, hw1]
          · rw [hb0] at hc
            simp only [Option.some_bind] at hc
            simp [hb0, hc, hb, hw1]
    · intro hw1
      unfold select
      rcases hcase with hc | hc
      · have hnmem : hour ∉ synopticHours := by simpa using hc
        rcases hb : firstAt data nextDate with _ | o
        · simp [hnmem, hb]
        · rw [hb] at hw1
          simp only [Option.some_bind] at hw1
          simp [hnmem, hb, hw1]
      · rcases hb0 : firstAt data ⟨year, month, day, hour, 0⟩ with _ | o0
        · rcases hb : firstAt data nextDate with _ | o
          · simp [hb0, hb]
          · rw [hb] at hw1
            simp only [Option.some_bind] at hw1
            simp [hb0, hb, hw1]
        · rw [hb0] at hc
          simp only [Option.some_bind] at hc
          rcases hb : firstAt data nextDate with _ | o
          · simp [hb0, hc, hb]
          · rw [hb] at hw1
            simp only [Option.some_bind] at hw1
            simp [hb0, hc, hb, hw1]

/-- Sample series for the selector: a synoptic-hour record with both
codes present and a later record carrying only a secondary code. -/
def exSeries9 : Series :=
  [⟨⟨2020, 1, 15, 12, 0⟩, none, none, some "shower", some "drizzle"⟩,
   ⟨⟨2020, 1, 15, 18, 0⟩, none, none, none, some "overcast"⟩]

/-- C9 witness: hour 12 with a non-missing `WW` displays it, and hour 18
whose record has a missing `WW` falls back to the `W1` at the fallback
instant. -/
theorem spec_C9_witness :
    (synopticHours.contains 12 = true ∧
      (firstAt exSeries9 ⟨2020, 1, 15, 12, 0⟩).bind (fun o => o.WW) =
        some "shower" ∧
      select exSeries9 ⟨2020, 1, 15, 18, 0⟩ 2020 1 15 12 = "shower") ∧
    ((firstAt exSeries9 ⟨2020, 1, 15, 18, 0⟩).bind (fun o => o.WW) = none ∧
      (firstAt exSeries9 ⟨2020, 1, 15, 18, 0⟩).bind (fun o => o.W1) =
        some "overcast" ∧
      select exSeries9 ⟨2020, 1, 15, 18, 0⟩ 2020 1 15 18 = "overcast") :=
  ⟨⟨by decide, by decide,
      (spec_C9 exSeries9 ⟨2020, 1, 15, 18, 0⟩ 2020 1 15 12).1 "shower"
        (by decide) (by decide)⟩,
   ⟨by decide, by decide,
      ((spec_C9 exSeries9 ⟨2020, 1, 15, 18, 0⟩ 2020 1 15 18).2
        (Or.inr (by decide))).1 "overcast" (by decide)⟩⟩

/-- C10 (implicit): on an exact timestamp match the resolver still stores
as fallback the LAST record at-or-after the request, and a non-synoptic
query then displays the `W1` code of that fallback record (or the
sentinel), not the `W1` of the requested observation. -/
theorem spec_C10 (data : Series) (year month day hour minute : Nat)
    (hmem : ∃ o ∈ data, o.time = ⟨year, month, day, hour, minute⟩)
    (hsyn : synopticHours.contains hour = false) :
    ∃ r last,
      resolve data ⟨year, month, day, hour, minute⟩ = Except.ok r ∧
      r.exact = true ∧
      (geqSubset data ⟨year, month, day, hour, minute⟩).getLast? = some last ∧
      r.fallback = last.time ∧
      select data r.fallback year month day hour =
        (match (firstAt data last.time).bind (fun o => o.W1) with
         | some w => w
         | none => noWeatherInfo) := by
  obtain ⟨o, ho, hot⟩ := hmem
  have hmonth : (monthFiltered data year month).isEmpty = false := by
    apply List.isEmpty_eq_false.mpr
    intro hemp
    have hm : o ∈ monthFiltered data year month :=
      List.mem_filter.mpr ⟨ho, by simp [hot]⟩
    rw [hemp] at hm
    cases hm
  have hexact : data.any (fun x => x.time == ⟨year, month, day, hour, minute⟩) =
      true :=
    List.any_eq_true.mpr ⟨o, ho, by simp [hot]⟩
  have hne : geqSubset data ⟨year, month, day, hour, minute⟩ ≠ [] := by
    intro hemp
    have hm : o ∈ geqSubset data ⟨year, month, day, hour, minute⟩ :=
      List.mem_filter.mpr ⟨ho, by simp [hot, DT.leB_refl]⟩
    rw [hemp] at hm
    cases hm
  obtain ⟨last, hlast⟩ :
      ∃ l, (geqSubset data ⟨year, month, day, hour, minute⟩).getLast? = some l := by
    cases hgl : (geqSubset data ⟨year, month, day, hour, minute⟩).getLast? with
    | none => exact absurd (List.getLast?_eq_none_iff.mp hgl) hne
    | some l => exact ⟨l, rfl⟩
  refine ⟨⟨⟨year, month, day, hour, minute⟩, true, last.time⟩, last, ?_, rfl,
    hlast, rfl, ?_⟩
  · unfold resolve
    simp [hmonth, hexact, hlast]
  · have hnmem : hour ∉ synopticHours := by simpa using hsyn
    unfold select
    rcases hb : firstAt data last.time with _ | ob
    · simp [hnmem, hb]
    · rcases hw : ob.W1 with _ | w <;> simp [hnmem, hb, hw]

/-- Series for the exact-match fallback quirk: the requested record at a
non-synoptic hour carries `W1 = "fog"`, a later record carries
`W1 = "rain"`. -/
def exSeries10 : Series :=
  [⟨⟨2020, 1, 15, 13, 0⟩, none, none, none, some "fog"⟩,
   ⟨⟨2020, 1, 20, 13, 0⟩, none, none, none, some "rain"⟩]

/-- C10 witness: an exact-match non-synoptic query displays "rain", the
`W1` of the LAST at-or-after record, although the requested observation
itself carries `W1 = "fog"`. -/
theorem spec_C10_witness :
    ((∃ o ∈ exSeries10, o.time = ⟨2020, 1, 15, 13, 0⟩) ∧
      synopticHours.contains 13 = false) ∧
    (∃ r last,
      resolve exSeries10 ⟨2020, 1, 15, 13, 0⟩ = Except.ok r ∧
      r.exact = true ∧
      (geqSubset exSeries10 ⟨2020, 1, 15, 13, 0⟩).getLast? = some last ∧
      r.fallback = last.time ∧
      select exSeries10 r.fallback 2020 1 15 13 =
        (match (firstAt exSeries10 last.time).bind (fun o => o.W1) with
         | some w => w
         | none => noWeatherInfo)) ∧
    select exSeries10 ⟨2020, 1, 20, 13, 0⟩ 2020 1 15 13 = "rain" ∧
    (firstAt exSeries10 ⟨2020, 1, 15, 13, 0⟩).bind (fun o => o.W1) = some "fog" :=
  ⟨⟨by decide, by decide⟩,
    spec_C10 exSeries10 2020 1 15 13 0 (by decide) (by decide),
    by decide, by decide⟩

end RedWeather
